import Mathlib

/-!
# Verification of the `situation` GPU command layer core

The repository ships the example programs and build stubs of a single-header
GPU command layer (`situation.h`).  The core library itself (resource
registry, command recorder, render-pass state machine, frame controller and
the two backend adapters) is not part of the source tree that was provided,
so every core definition below is modelled from the specification document,
faithfully to its words, and the examples' calling conventions.
-/

namespace Situation

/-- Modelled from the spec: the error taxonomy of §7 — configuration errors,
state-machine violations, resource (invalid-handle) errors, invalid-argument
errors and backend/device errors.  Frame-not-ready is deliberately *not* a
member of this type (§7: it is a normal skip-this-frame signal). -/
inductive SituationError where
  | configurationError
  | stateMachineViolation
  | invalidHandle
  | invalidArgument
  | deviceError
  deriving DecidableEq, Repr

/-- Modelled from the spec: resource kinds owned by the Resource Registry
(§2, §3): buffers, textures, meshes, graphics pipelines and compute
pipelines. -/
inductive ResourceKind where
  | buffer
  | texture
  | mesh
  | pipeline
  | computePipeline
  deriving DecidableEq, Repr

/-- Modelled from the spec: the usage-flag set of a Buffer (§3):
vertex-input, index-input, storage/compute, transfer-source,
transfer-destination — combinable. -/
structure UsageFlags where
  vertexInput : Bool
  indexInput : Bool
  storage : Bool
  transferSrc : Bool
  transferDst : Bool
  deriving DecidableEq, Repr

/-- Modelled from the spec: an opaque handle, "generation + index" (§3, §9).
The examples read the index part as the `.id` field; id 0 is the reserved
sentinel meaning invalid/uninitialized (§6). -/
structure Handle where
  id : Nat
  gen : Nat
  deriving DecidableEq, Repr

/-- The sentinel handle: id 0, meaning invalid/uninitialized (§6). -/
def Handle.null : Handle := ⟨0, 0⟩

/-- Modelled from the spec: one arena slot of the Resource Registry (§4.1,
§9): a generation counter, the resource kind, the fixed size and usage
recorded at creation, and the byte contents of the backing memory. -/
structure Slot where
  gen : Nat
  kind : ResourceKind
  size : Nat
  usage : UsageFlags
  data : List Nat
  deriving DecidableEq, Repr

/-- Modelled from the spec: the Resource Registry (§2, §4.1): an arena of
generation-counted slots; handle id `i` (for `i ≥ 1`) names slot `i - 1`. -/
structure Registry where
  slots : List Slot
  deriving DecidableEq, Repr

/-- The empty registry. -/
def Registry.empty : Registry := ⟨[]⟩

/-- The arena slot a handle points at, if any: id 0 is the sentinel and
points at no slot (§6), other ids index the arena. -/
def Registry.slotOf (r : Registry) (h : Handle) : Option Slot :=
  if h.id = 0 then none else r.slots.get? (h.id - 1)

/-- Modelled from the spec (§9): a handle is valid iff its generation
matches the arena slot's current generation. -/
def Registry.validHandle (r : Registry) (h : Handle) : Bool :=
  match r.slotOf h with
  | some s => s.gen = h.gen
  | none => false

/-- Looks a handle up for a consuming call: the slot is returned only when
the handle is valid (generation matches); the sentinel and stale handles
yield `none`. -/
def Registry.lookup (r : Registry) (h : Handle) : Option Slot :=
  match r.slotOf h with
  | some s => if s.gen = h.gen then some s else none
  | none => none

/-- Pads or truncates initial data to the declared resource size. -/
def padTo (size : Nat) (d : List Nat) : List Nat :=
  d.take size ++ List.replicate (size - d.length) 0

/-- Modelled from the spec (§4.1, §7a): a creation descriptor is
well-formed when the size is nonzero and any initial data fits in the
declared size (size is fixed at creation, §4.1). -/
def createOk (size : Nat) (initData : Option (List Nat)) : Bool :=
  decide (0 < size) &&
    match initData with
    | some d => decide (d.length ≤ size)
    | none => true

/-- Modelled from the spec: `create(kind, descriptor, optional_initial_data)
-> Handle` (§4.1).  A configuration error (zero-sized resource, oversized
initial data) is detected synchronously and yields the sentinel handle
(§6, §7a); on success a fresh slot is appended and the returned handle is
its (nonzero) id with the slot's generation. -/
def Registry.createResource (r : Registry) (kind : ResourceKind) (size : Nat)
    (initData : Option (List Nat)) (usage : UsageFlags) : Registry × Handle :=
  if createOk size initData then
    let contents := padTo size (initData.getD [])
    (⟨r.slots ++ [⟨0, kind, size, usage, contents⟩]⟩, ⟨r.slots.length + 1, 0⟩)
  else
    (r, Handle.null)

/-- Modelled from the spec: `SituationCreateBuffer(size, initial_data,
usage)` as used by the examples — creation of a Buffer resource (§3, §4.1). -/
def Registry.createBuffer (r : Registry) (size : Nat)
    (initData : Option (List Nat)) (usage : UsageFlags) : Registry × Handle :=
  r.createResource .buffer size initData usage

/-- Splices `d` into `data` at byte offset `off`, leaving the rest alone. -/
def spliceBytes (data : List Nat) (off : Nat) (d : List Nat) : List Nat :=
  data.take off ++ d ++ data.drop (off + d.length)

/-- Modelled from the spec: `write(Handle, offset, data)` (§4.1).  An
invalid or destroyed handle fails with an invalid-handle error (§7c); a
write past the fixed size fails with an invalid-argument error; otherwise
the bytes are spliced into the backing memory. -/
def Registry.writeBuffer (r : Registry) (h : Handle) (off : Nat)
    (d : List Nat) : Except SituationError Registry :=
  match r.lookup h with
  | none => .error .invalidHandle
  | some s =>
      if off + d.length ≤ s.size then
        .ok ⟨r.slots.set (h.id - 1) { s with data := spliceBytes s.data off d }⟩
      else
        .error .invalidArgument

/-- Modelled from the spec: `read(Handle, offset, size) -> data` (§4.1, §5).
Reading blocks the calling thread until all GPU writes ordered before the
read are visible, so the model returns the registry contents as of the
completed frame.  Invalid handles and out-of-range reads fail as in
`writeBuffer`. -/
def Registry.readBuffer (r : Registry) (h : Handle) (off n : Nat) :
    Except SituationError (List Nat) :=
  match r.lookup h with
  | none => .error .invalidHandle
  | some s =>
      if off + n ≤ s.size then
        .ok ((s.data.drop off).take n)
      else
        .error .invalidArgument

/-- Modelled from the spec: `destroy(Handle)` (§4.1, §9).  Destroying a
valid handle bumps the slot's generation, so the handle no longer matches
and every later use of it — including a second destroy — fails with an
invalid-handle error rather than crashing or silently no-oping. -/
def Registry.destroyResource (r : Registry) (h : Handle) :
    Except SituationError Registry :=
  match r.lookup h with
  | none => .error .invalidHandle
  | some s => .ok ⟨r.slots.set (h.id - 1) { s with gen := s.gen + 1 }⟩

/-- Modelled from the spec (§6, and the examples' calling convention):
the C API destroy calls take the handle by pointer —
`SituationDestroyBuffer(&b)` — and on successful destruction reset the
pointed-to handle to the sentinel (id 0), so it reads as
invalid/uninitialized thereafter.  The model returns the new registry
together with the value left in the pointed-to handle. -/
def Registry.destroyByPointer (r : Registry) (h : Handle) :
    Except SituationError (Registry × Handle) :=
  (r.destroyResource h).map (fun r2 => (r2, Handle.null))

/-- Modelled from the spec: `SituationDestroyBuffer(&buffer)`. -/
def situationDestroyBuffer (r : Registry) (h : Handle) :
    Except SituationError (Registry × Handle) :=
  r.destroyByPointer h

/-- Modelled from the spec: `SituationDestroyMesh(&mesh)`. -/
def situationDestroyMesh (r : Registry) (h : Handle) :
    Except SituationError (Registry × Handle) :=
  r.destroyByPointer h

/-- Modelled from the spec: `SituationUnloadShader(&shader)`. -/
def situationUnloadShader (r : Registry) (h : Handle) :
    Except SituationError (Registry × Handle) :=
  r.destroyByPointer h

/-- Modelled from the spec: `SituationDestroyComputePipeline(&pipe)`. -/
def situationDestroyComputePipeline (r : Registry) (h : Handle) :
    Except SituationError (Registry × Handle) :=
  r.destroyByPointer h

/-- The examples' cleanup idiom (`cleanup_resources` in basic_triangle.c):
destroy only when the handle id is nonzero, keeping the (reset) handle
around afterwards. -/
def guardedDestroy (r : Registry) (h : Handle) :
    Except SituationError (Registry × Handle) :=
  if h.id = 0 then .ok (r, h) else r.destroyByPointer h

/-- Modelled from the spec: the GPU execution stage tags recognised by the
barrier primitive (§4.4): compute-write, vertex-read, transfer-read/write
and host-read. -/
inductive Stage where
  | computeShaderWrite
  | vertexShaderRead
  | transferRead
  | transferWrite
  | hostRead
  deriving DecidableEq, Repr

/-- Modelled from the spec: the backend-neutral recorded operations a
command buffer holds (§2, §4.3): dispatches, barriers, draws and copies,
referring to registry slots by arena index.  Binding state has already been
resolved by the Command Recorder, so a dispatch carries its pipeline id,
its workgroup counts and the arena indices of its bound buffers, and a draw
carries its pipeline id and the arena indices of the buffers it reads. -/
inductive LCmd where
  | lDispatch (pipe gx gy gz : Nat) (binds : List Nat)
  | lBarrier (src dst : Stage)
  | lDraw (pipe : Nat) (reads : List Nat)
  | lCopy (src dst : Nat)
  deriving DecidableEq, Repr

/-- Modelled from the spec: the render-pass state machine's states (§4.3):
`Idle → FrameAcquired → InPass → FrameAcquired → … → Idle`. -/
inductive RecState where
  | idle
  | frameAcquired
  | inPass
  deriving DecidableEq, Repr

/-- Modelled from the spec: a Render Pass descriptor (§3): a target (the
display surface or an offscreen texture), whether depth testing is
requested, and whether a depth attachment is bound. -/
structure RenderPassDesc where
  useDisplay : Bool
  target : Handle
  depthTest : Bool
  hasDepthAttachment : Bool
  deriving DecidableEq, Repr

/-- Modelled from the spec: the Command Recorder (§2, §4.3): the state
machine position, the currently bound compute pipeline and its buffer
bindings, the currently bound graphics pipeline and its storage-buffer
bindings, and the accumulated command stream. -/
structure Recorder where
  state : RecState
  boundComputePipe : Handle
  computeBinds : List (Nat × Handle)
  boundGfxPipe : Handle
  gfxBinds : List (Nat × Handle)
  cmds : List LCmd
  deriving DecidableEq, Repr

/-- The recorder in its initial (idle, nothing bound) state. -/
def Recorder.initial : Recorder :=
  ⟨.idle, Handle.null, [], Handle.null, [], []⟩

/-- Modelled from the spec: the recording-time API calls of §4.3 —
begin/end render pass, pipeline and resource binds, draws, dispatches and
barriers. -/
inductive RecOp where
  | beginPass (d : RenderPassDesc)
  | endPass
  | bindPipeline (h : Handle)
  | bindComputePipeline (h : Handle)
  | bindComputeBuffer (slot : Nat) (h : Handle)
  | bindStorageBuffer (slot : Nat) (h : Handle)
  | draw (mesh : Handle)
  | dispatch (gx gy gz : Nat)
  | barrier (src dst : Stage)
  deriving DecidableEq, Repr

/-- The arena index a binding refers to. -/
def bindIndex (p : Nat × Handle) : Nat := p.2.id - 1

/-- Modelled from the spec: recording one operation (§4.3, §7).  Each call
is validated synchronously against the current state: configuration errors
(invalid pass target, depth test without a depth attachment),
state-machine violations (draw outside a pass, nested pass, dispatch with
no compute pipeline bound, any recording call outside a frame) and
resource errors (invalid handles) fail with an error and record nothing;
a zero-size dispatch fails with an invalid-argument error. -/
def record (reg : Registry) (c : Recorder) (op : RecOp) :
    Except SituationError Recorder :=
  match op with
  | .beginPass d =>
      if c.state = .inPass then .error .stateMachineViolation
      else if c.state = .idle then .error .stateMachineViolation
      else if !d.useDisplay && !(reg.validHandle d.target) then
        .error .configurationError
      else if d.depthTest && !d.hasDepthAttachment then
        .error .configurationError
      else .ok { c with state := .inPass }
  | .endPass =>
      if c.state = .inPass then .ok { c with state := .frameAcquired }
      else .error .stateMachineViolation
  | .bindPipeline h =>
      if c.state ≠ .inPass then .error .stateMachineViolation
      else if !(reg.validHandle h) then .error .invalidHandle
      else .ok { c with boundGfxPipe := h }
  | .bindComputePipeline h =>
      if c.state = .idle then .error .stateMachineViolation
      else if !(reg.validHandle h) then .error .invalidHandle
      else .ok { c with boundComputePipe := h }
  | .bindComputeBuffer slot h =>
      if c.state = .idle then .error .stateMachineViolation
      else if !(reg.validHandle h) then .error .invalidHandle
      else .ok { c with computeBinds := c.computeBinds ++ [(slot, h)] }
  | .bindStorageBuffer slot h =>
      if c.state = .idle then .error .stateMachineViolation
      else if !(reg.validHandle h) then .error .invalidHandle
      else .ok { c with gfxBinds := c.gfxBinds ++ [(slot, h)] }
  | .draw mesh =>
      if c.state ≠ .inPass then .error .stateMachineViolation
      else if c.boundGfxPipe.id = 0 then .error .stateMachineViolation
      else if !(reg.validHandle mesh) then .error .invalidHandle
      else
        .ok { c with cmds := c.cmds ++
          [.lDraw c.boundGfxPipe.id
            (c.gfxBinds.map bindIndex ++ [mesh.id - 1])] }
  | .dispatch gx gy gz =>
      if gx = 0 ∨ gy = 0 ∨ gz = 0 then .error .invalidArgument
      else if c.state = .idle then .error .stateMachineViolation
      else if c.boundComputePipe.id = 0 then .error .stateMachineViolation
      else
        .ok { c with cmds := c.cmds ++
          [.lDispatch c.boundComputePipe.id gx gy gz
            (c.computeBinds.map bindIndex)] }
  | .barrier src dst =>
      if c.state = .idle then .error .stateMachineViolation
      else .ok { c with cmds := c.cmds ++ [.lBarrier src dst] }

/-- Recording with errors surfaced but the recorder kept: a failed call has
no side effect on the recorder (§4.3, §7 — errors are surfaced, never
partially applied). -/
def tryRecord (reg : Registry) (c : Recorder) (op : RecOp) : Recorder :=
  match record reg c op with
  | .ok c2 => c2
  | .error _ => c

/-- Modelled from the spec: the result of frame acquisition (§4.3, §7).
`notReady` is the normal skip-this-frame signal (surface busy or
resizing); it is a constructor of its own, distinct from every
`failed` error kind, so transient unavailability is never conflated with a
true failure. -/
inductive AcquireResult where
  | ready
  | notReady
  | failed (e : SituationError)
  deriving DecidableEq, Repr

/-- Modelled from the spec: the per-context core state (§2, §9): the
Resource Registry plus the Command Recorder / state machine.  The explicit
context object is the core contract; no global state exists in the core. -/
structure Context where
  reg : Registry
  recorder : Recorder
  deriving DecidableEq, Repr

/-- Modelled from the spec: `acquireFrame()` (§4.3):
`Idle → FrameAcquired`; when the presentation target is not currently
available (e.g. surface resize in progress) it returns the not-ready
signal — not an error — and changes nothing; calling it outside `Idle`
is a state-machine violation. -/
def acquireFrame (ctx : Context) (surfaceAvailable : Bool) :
    AcquireResult × Context :=
  if ctx.recorder.state ≠ .idle then (.failed .stateMachineViolation, ctx)
  else if !surfaceAvailable then (.notReady, ctx)
  else (.ready, { ctx with recorder := { ctx.recorder with state := .frameAcquired, cmds := [] } })

/-- Modelled from the spec: `endFrame()` (§4.3):
`FrameAcquired → Idle`, handing the recorded stream to the active backend
adapter for submission and presentation; ending a frame twice in a row is
a state-machine violation (§8). -/
def endFrame (ctx : Context) : Except SituationError (Context × List LCmd) :=
  if ctx.recorder.state = .frameAcquired then
    .ok ({ ctx with recorder := { ctx.recorder with state := .idle } }, ctx.recorder.cmds)
  else .error .stateMachineViolation

/-- Recording one operation on a context, threading the registry. -/
def contextRecord (ctx : Context) (op : RecOp) :
    Except SituationError Context :=
  (record ctx.reg ctx.recorder op).map (fun c2 => { ctx with recorder := c2 })

/-- Modelled from the spec (§9, open question resolved there): the
implicit-current-context convenience layer is an external shim holding an
optional current context; the core itself keeps no hidden global mutable
context state. -/
structure CurrentContextShim where
  current : Option Context
  deriving DecidableEq, Repr

/-- Modelled from the spec: `SituationSetCurrentContext(ctx)` — installs a
context into the convenience shim. -/
def situationSetCurrentContext (_w : CurrentContextShim) (ctx : Context) :
    CurrentContextShim :=
  { current := some ctx }

/-- The implicit-current form of `acquireFrame`: delegates to the explicit
core call on the shim's current context (none installed: no call is made). -/
def implicitAcquireFrame (w : CurrentContextShim) (surfaceAvailable : Bool) :
    Option (AcquireResult × Context) :=
  w.current.map (fun ctx => acquireFrame ctx surfaceAvailable)

/-- The implicit-current form of recording an operation. -/
def implicitRecord (w : CurrentContextShim) (op : RecOp) :
    Option (Except SituationError Context) :=
  w.current.map (fun ctx => contextRecord ctx op)

/-- The implicit-current form of `endFrame`. -/
def implicitEndFrame (w : CurrentContextShim) :
    Option (Except SituationError (Context × List LCmd)) :=
  w.current.map (fun ctx => endFrame ctx)

/-- The implicit-current form of a buffer read. -/
def implicitReadBuffer (w : CurrentContextShim) (h : Handle) (off n : Nat) :
    Option (Except SituationError (List Nat)) :=
  w.current.map (fun ctx => ctx.reg.readBuffer h off n)

/-- The GPU-side byte contents of all registry slots, indexed by arena
index — the portion of state the backend adapters execute against. -/
abbrev Store := List (List Nat)

/-- The contents of arena slot `i` (absent slots read as empty). -/
def Store.readAt (s : Store) (i : Nat) : List Nat :=
  (List.get? s i).getD []

/-- Overwrites the contents of arena slot `i`. -/
def Store.writeAt (s : Store) (i : Nat) (d : List Nat) : Store :=
  List.set s i d

/-- Applies a batch of slot writes in order. -/
def Store.applyWrites (s : Store) (ws : List (Nat × List Nat)) : Store :=
  ws.foldl (fun acc w => acc.writeAt w.1 w.2) s

/-- Modelled from the spec: the semantics environment supplied by the
shader compiler (§6): for each compute pipeline id and workgroup-count
triple, the transformation the pipeline applies to the contents of its
bound buffers (one output per binding, positionally). -/
abbrev Sem := Nat → Nat × Nat × Nat → List (List Nat) → List (List Nat)

/-- Executes one dispatch against a store: reads the bound slots, applies
the pipeline's transformation, and writes each result back to its slot. -/
def dispatchStore (sem : Sem) (pipe gx gy gz : Nat) (binds : List Nat)
    (s : Store) : Store :=
  s.applyWrites (binds.zip (sem pipe (gx, gy, gz) (binds.map s.readAt)))

/-- One entry of the observable draw log: the graphics pipeline that drew
and the buffer contents its shader stages read — the model's "output
pixels", since the pixels a draw produces are a function of exactly these. -/
abbrev DrawLogEntry := Nat × List (List Nat)

/-- Modelled from the spec: the immediate-style backend adapter's state
(§4.2): driver-side storage in which every executed operation's writes are
immediately visible, plus the draw log. -/
structure IState where
  store : Store
  log : List DrawLogEntry
  deriving DecidableEq

/-- Modelled from the spec: the explicit/queued backend adapter's state
(§4.2): `comp` is the latest data as produced by the compute/transfer
stages of the submitted native stream, `vis` is what the vertex stage can
observe — compute-stage writes become visible to it only at an explicit
barrier (or at the per-frame fence); plus the draw log. -/
structure QState where
  vis : Store
  comp : Store
  log : List DrawLogEntry
  deriving DecidableEq

/-- Whether a barrier whose source stage is `src` makes pending
compute/transfer writes visible to later stages (§4.4). -/
def Stage.flushes : Stage → Bool
  | .computeShaderWrite => true
  | .transferWrite => true
  | _ => false

/-- Modelled from the spec: the immediate-style adapter executes each
recorded operation in recorded order; the driver already serializes
same-context operations, so a barrier degrades to a no-op (§4.2, §4.4). -/
def immediateStep (sem : Sem) (st : IState) : LCmd → IState
  | .lDispatch pipe gx gy gz binds =>
      { st with store := dispatchStore sem pipe gx gy gz binds st.store }
  | .lBarrier _ _ => st
  | .lDraw pipe reads =>
      { st with log := st.log ++ [(pipe, reads.map st.store.readAt)] }
  | .lCopy src dst =>
      { st with store := st.store.writeAt dst (st.store.readAt src) }

/-- Runs a recorded stream through the immediate-style adapter. -/
def execImmediate (sem : Sem) (cmds : List LCmd) (st : IState) : IState :=
  cmds.foldl (immediateStep sem) st

/-- Modelled from the spec: the explicit/queued adapter translates each
recorded operation into a native command-stream entry (§4.2): dispatches
and copies act on the compute/transfer-stage data, a barrier whose source
stage flushes makes that data visible to the vertex stage, and a draw
reads only what is visible to the vertex stage. -/
def queuedStep (sem : Sem) (st : QState) : LCmd → QState
  | .lDispatch pipe gx gy gz binds =>
      { st with comp := dispatchStore sem pipe gx gy gz binds st.comp }
  | .lBarrier src _ =>
      if src.flushes then { st with vis := st.comp } else st
  | .lDraw pipe reads =>
      { st with log := st.log ++ [(pipe, reads.map st.vis.readAt)] }
  | .lCopy src dst =>
      { st with comp := st.comp.writeAt dst (st.comp.readAt src) }

/-- Runs a recorded stream through the explicit/queued adapter. -/
def execQueued (sem : Sem) (cmds : List LCmd) (st : QState) : QState :=
  cmds.foldl (queuedStep sem) st

/-- Modelled from the spec: frame completion on the queued adapter (§4.2,
§5): once the per-frame fence signals, every write of the submitted stream
is visible. -/
def finishFrame (st : QState) : QState :=
  { st with vis := st.comp }

/-- Correct barrier placement (§4.4, §5): walking the stream while
accumulating the arena slots dirtied by compute/transfer writes since the
last flushing barrier, every draw reads only clean slots.  This is the
discipline the caller owes the layer: a same-frame writer + reader of one
resource requires an explicit barrier between them. -/
def drawsClean : List LCmd → List Nat → Bool
  | [], _ => true
  | .lDispatch _ _ _ _ binds :: rest, dirty => drawsClean rest (dirty ++ binds)
  | .lBarrier src _ :: rest, dirty =>
      if src.flushes then drawsClean rest [] else drawsClean rest dirty
  | .lDraw _ reads :: rest, dirty =>
      reads.all (fun b => !(decide (b ∈ dirty))) && drawsClean rest dirty
  | .lCopy _ dst :: rest, dirty => drawsClean rest (dirty ++ [dst])

/-! ## Concrete sample values, used to evaluate the theorems -/

/-- A storage-usage flag set, as the particle example's buffer uses. -/
def storageUsage : UsageFlags := ⟨false, false, true, false, false⟩

/-- A one-buffer registry used to evaluate the theorems on concrete data. -/
def sampleReg : Registry := ⟨[⟨0, .buffer, 1, storageUsage, [7]⟩]⟩

/-- `sampleReg` after its only handle is destroyed (generation bumped). -/
def sampleRegBumped : Registry := ⟨[⟨1, .buffer, 1, storageUsage, [7]⟩]⟩

/-- A recorder that has acquired a frame and recorded nothing yet. -/
def recFrameAcquired : Recorder := ⟨.frameAcquired, Handle.null, [], Handle.null, [], []⟩

/-- A context at idle over the sample registry. -/
def sampleCtx : Context := ⟨sampleReg, Recorder.initial⟩

/-- Sample shader semantics: a pipeline of any id increments every byte of
every bound buffer. -/
def sampleSem : Sem := fun _ _ ins => ins.map (fun l => l.map (fun x => x + 1))

/-- A recorded stream: dispatch writing slot 0, flushing barrier, draw
reading slot 0. -/
def sampleStream : List LCmd :=
  [.lDispatch 1 1 1 1 [0], .lBarrier .computeShaderWrite .vertexShaderRead,
   .lDraw 2 [0]]

/-- A store with one two-byte buffer. -/
def sampleStore : Store := [[1, 2]]

/-! ## Helper lemmas about stores and byte splicing -/

theorem Store.readAt_writeAt_ne (s : Store) (i j : Nat) (d : List Nat)
    (h : i ≠ j) : (s.writeAt i d).readAt j = s.readAt j := by
  simp [Store.readAt, Store.writeAt, List.get?_eq_getElem?, List.getElem?_set_ne h]

theorem Store.readAt_applyWrites_not_mem (ws : List (Nat × List Nat)) :
    ∀ (s : Store) (j : Nat), (∀ w ∈ ws, w.1 ≠ j) →
      (s.applyWrites ws).readAt j = s.readAt j := by
  induction ws with
  | nil => intro s j _; rfl
  | cons w rest ih =>
      intro s j hw
      have h1 : (s.applyWrites (w :: rest)) = ((s.writeAt w.1 w.2).applyWrites rest) := rfl
      rw [h1, ih _ j (fun x hx => hw x (List.mem_cons_of_mem w hx)),
        Store.readAt_writeAt_ne _ _ _ _ (hw w (List.mem_cons_self w rest))]

theorem dispatchStore_readAt_not_mem (sem : Sem) (pipe gx gy gz : Nat)
    (binds : List Nat) (s : Store) (j : Nat) (h : ¬ j ∈ binds) :
    (dispatchStore sem pipe gx gy gz binds s).readAt j = s.readAt j := by
  apply Store.readAt_applyWrites_not_mem
  intro w hw hj
  exact h (hj ▸ (List.of_mem_zip hw).1)

theorem spliceBytes_length (data : List Nat) (off : Nat) (d : List Nat)
    (h : off + d.length ≤ data.length) :
    (spliceBytes data off d).length = data.length := by
  simp [spliceBytes]
  omega

theorem spliceBytes_extract (data : List Nat) (off : Nat) (d : List Nat)
    (h : off + d.length ≤ data.length) :
    ((spliceBytes data off d).drop off).take d.length = d := by
  have hofflen : (data.take off).length = off := by
    simp; omega
  have h1 : (spliceBytes data off d).drop off
      = d ++ data.drop (off + d.length) := by
    have := List.drop_left (data.take off) (d ++ data.drop (off + d.length))
    rw [hofflen] at this
    simpa [spliceBytes] using this
  rw [h1]
  exact List.take_left d _

theorem padTo_length (size : Nat) (d : List Nat) (h : d.length ≤ size) :
    (padTo size d).length = size := by
  simp [padTo]
  omega

theorem createOk_fields (size : Nat) (initData : Option (List Nat))
    (h : createOk size initData = true) :
    0 < size ∧ (initData.getD []).length ≤ size := by
  cases initData with
  | none => simpa [createOk] using h
  | some d => simpa [createOk] using h

/-! ## Helper lemmas about the registry -/

theorem validHandle_lookup (r : Registry) (h : Handle) :
    r.validHandle h = (r.lookup h).isSome := by
  unfold Registry.validHandle Registry.lookup
  cases r.slotOf h with
  | none => rfl
  | some s => by_cases hg : s.gen = h.gen <;> simp [hg]

theorem destroy_ok_inv (r r2 : Registry) (h : Handle)
    (hd : r.destroyResource h = .ok r2) :
    ∃ s, h.id ≠ 0 ∧ (List.get? r.slots (h.id - 1)) = some s ∧ s.gen = h.gen ∧
      r2 = ⟨r.slots.set (h.id - 1) { s with gen := s.gen + 1 }⟩ := by
  by_cases hid : h.id = 0
  · simp [Registry.destroyResource, Registry.lookup, Registry.slotOf, hid] at hd
  · rw [List.get?_eq_getElem?]
    cases hg : r.slots[h.id - 1]? with
    | none =>
        simp [Registry.destroyResource, Registry.lookup, Registry.slotOf, hid, hg] at hd
    | some s =>
        by_cases hgen : s.gen = h.gen
        · refine ⟨s, hid, rfl, hgen, ?_⟩
          simp [Registry.destroyResource, Registry.lookup, Registry.slotOf,
            hid, hg, hgen] at hd
          rw [← hd, hgen]
        · simp [Registry.destroyResource, Registry.lookup, Registry.slotOf,
            hid, hg, hgen] at hd

theorem lookup_after_destroy (r r2 : Registry) (h : Handle)
    (hd : r.destroyResource h = .ok r2) : r2.lookup h = none := by
  obtain ⟨s, hid, hg, hgen, hr2⟩ := destroy_ok_inv r r2 h hd
  rw [List.get?_eq_getElem?] at hg
  have hlt : h.id - 1 < r.slots.length := by
    by_contra hge
    rw [List.getElem?_eq_none (by omega)] at hg
    exact Option.noConfusion hg
  subst hr2
  simp [Registry.lookup, Registry.slotOf, hid, List.get?_eq_getElem?,
    List.getElem?_set_self', hlt, ← hgen]

/-- C3: for every `create → write → read` sequence on one Buffer whose
written data does not exceed the buffer's size, `read(handle, offset,
size)` returns exactly the bytes last written at that offset, after the
surrounding frame completes (the model's read is the post-synchronization
read of §5). -/
theorem c3_create_write_read (r : Registry) (size : Nat)
    (initd : Option (List Nat)) (usage : UsageFlags) (off : Nat) (d : List Nat)
    (hok : createOk size initd = true) (hfit : off + d.length ≤ size) :
    ∃ r2 : Registry,
      (r.createBuffer size initd usage).1.writeBuffer
          (r.createBuffer size initd usage).2 off d = .ok r2 ∧
      r2.readBuffer (r.createBuffer size initd usage).2 off d.length = .ok d := by
  obtain ⟨hpos, hlen⟩ := createOk_fields size initd hok
  have hdlen : (padTo size (initd.getD [])).length = size := padTo_length _ _ hlen
  have hcreate : r.createBuffer size initd usage
      = (⟨r.slots ++ [⟨0, .buffer, size, usage, padTo size (initd.getD [])⟩]⟩,
         ⟨r.slots.length + 1, 0⟩) := by
    simp [Registry.createBuffer, Registry.createResource, hok]
  rw [hcreate]
  have hlook1 : (Registry.mk (r.slots ++ [⟨0, .buffer, size, usage,
      padTo size (initd.getD [])⟩])).lookup ⟨r.slots.length + 1, 0⟩
      = some ⟨0, .buffer, size, usage, padTo size (initd.getD [])⟩ := by
    simp [Registry.lookup, Registry.slotOf, List.get?_eq_getElem?,
      List.getElem?_concat_length]
  refine ⟨⟨r.slots ++ [(⟨0, .buffer, size, usage,
      spliceBytes (padTo size (initd.getD [])) off d⟩ : Slot)]⟩, ?_, ?_⟩
  · simp [Registry.writeBuffer, hlook1, hfit]
  · have hlook2 : (Registry.mk (r.slots ++ [(⟨0, .buffer, size, usage,
        spliceBytes (padTo size (initd.getD [])) off d⟩ : Slot)])).lookup
        ⟨r.slots.length + 1, 0⟩
        = some (⟨0, .buffer, size, usage,
            spliceBytes (padTo size (initd.getD [])) off d⟩ : Slot) := by
      simp [Registry.lookup, Registry.slotOf, List.get?_eq_getElem?,
        List.getElem?_concat_length]
    simp [Registry.readBuffer, hlook2, hfit]
    exact spliceBytes_extract (padTo size (initd.getD [])) off d (by omega)

/-- C3 witness at a concrete instance: a 4-byte buffer initialized with
`[9, 9, 9, 9]`, then `[5, 6]` written at offset 1 and read back. -/
theorem c3_witness :
    (createOk 4 (some [9, 9, 9, 9]) = true ∧ 1 + [5, 6].length ≤ 4) ∧
    (∃ r2 : Registry,
      (Registry.empty.createBuffer 4 (some [9, 9, 9, 9]) storageUsage).1.writeBuffer
          (Registry.empty.createBuffer 4 (some [9, 9, 9, 9]) storageUsage).2 1 [5, 6] = .ok r2 ∧
      r2.readBuffer
          (Registry.empty.createBuffer 4 (some [9, 9, 9, 9]) storageUsage).2 1 [5, 6].length
        = .ok [5, 6]) :=
  ⟨⟨by decide, by decide⟩,
   c3_create_write_read Registry.empty 4 (some [9, 9, 9, 9])
     storageUsage 1 [5, 6] (by decide) (by decide)⟩

/-- C4: handle value 0 is the reserved invalid/uninitialized sentinel for
every resource kind: creation returns a sentinel handle exactly when the
descriptor is rejected (so every successful creation returns a nonzero
id), and every consuming call — registry writes, reads, destroys, and
recorded draws or binds — given a sentinel handle fails with an
invalid-handle caller error instead of dereferencing it. -/
theorem c4_sentinel_reserved (r : Registry) (kind : ResourceKind) (size : Nat)
    (initd : Option (List Nat)) (usage : UsageFlags) (g off n slot : Nat)
    (d : List Nat) (cp : Handle) (cb gb : List (Nat × Handle)) (cs : List LCmd) :
    ((r.createResource kind size initd usage).2.id = 0 ↔ createOk size initd = false) ∧
    r.validHandle ⟨0, g⟩ = false ∧
    r.writeBuffer ⟨0, g⟩ off d = .error .invalidHandle ∧
    r.readBuffer ⟨0, g⟩ off n = .error .invalidHandle ∧
    r.destroyResource ⟨0, g⟩ = .error .invalidHandle ∧
    record r ⟨.inPass, cp, cb, ⟨1, 0⟩, gb, cs⟩ (.draw ⟨0, g⟩) = .error .invalidHandle ∧
    record r ⟨.frameAcquired, cp, cb, ⟨1, 0⟩, gb, cs⟩ (.bindComputeBuffer slot ⟨0, g⟩)
      = .error .invalidHandle := by
  refine ⟨?_, ?_, ?_, ?_, ?_, ?_, ?_⟩
  · cases hok : createOk size initd with
    | true => simp [Registry.createResource, hok]
    | false => simp [Registry.createResource, hok, Handle.null]
  · simp [Registry.validHandle, Registry.slotOf]
  · simp [Registry.writeBuffer, Registry.lookup, Registry.slotOf]
  · simp [Registry.readBuffer, Registry.lookup, Registry.slotOf]
  · simp [Registry.destroyResource, Registry.lookup, Registry.slotOf]
  · simp [record, Registry.validHandle, Registry.slotOf]
  · simp [record, Registry.validHandle, Registry.slotOf]

/-- C5: a handle is valid iff its generation matches the registry slot's
current generation, and once destroyed, every subsequent use of the handle
— a second destroy, a write, a read — fails with an invalid-handle error
rather than crashing or silently no-oping. -/
theorem c5_destroyed_handle_rejected (r r2 : Registry) (h : Handle)
    (off n : Nat) (d : List Nat) (hd : r.destroyResource h = .ok r2) :
    r2.validHandle h = false ∧
    r2.destroyResource h = .error .invalidHandle ∧
    r2.writeBuffer h off d = .error .invalidHandle ∧
    r2.readBuffer h off n = .error .invalidHandle ∧
    (r.validHandle h = true ↔ ∃ s, r.slotOf h = some s ∧ s.gen = h.gen) := by
  have hl2 := lookup_after_destroy r r2 h hd
  refine ⟨?_, ?_, ?_, ?_, ?_⟩
  · rw [validHandle_lookup, hl2]; rfl
  · simp [Registry.destroyResource, hl2]
  · simp [Registry.writeBuffer, hl2]
  · simp [Registry.readBuffer, hl2]
  · cases hs : r.slotOf h with
    | none => simp [Registry.validHandle, hs]
    | some s => simp [Registry.validHandle, hs]

/-- C5 witness at a concrete instance: a one-slot registry whose only
handle is destroyed once and then rejected everywhere. -/
theorem c5_witness :
    sampleReg.destroyResource ⟨1, 0⟩ = .ok sampleRegBumped ∧
    (sampleRegBumped.validHandle ⟨1, 0⟩ = false ∧
     sampleRegBumped.destroyResource ⟨1, 0⟩ = .error .invalidHandle ∧
     sampleRegBumped.writeBuffer ⟨1, 0⟩ 0 [5] = .error .invalidHandle ∧
     sampleRegBumped.readBuffer ⟨1, 0⟩ 0 1 = .error .invalidHandle ∧
     (sampleReg.validHandle ⟨1, 0⟩ = true ↔
       ∃ s, sampleReg.slotOf ⟨1, 0⟩ = some s ∧ s.gen = (⟨1, 0⟩ : Handle).gen)) :=
  ⟨rfl, c5_destroyed_handle_rejected sampleReg sampleRegBumped ⟨1, 0⟩ 0 1 [5] rfl⟩

/-- C6: when the presentation target is unavailable, frame acquisition
returns the distinguishable not-ready signal and changes nothing — it is
never conflated with the failure error kinds (`notReady` is distinct from
`failed e` for every error kind `e` and from `ready`), so skipping the
frame is the correct, non-fatal caller response. -/
theorem c6_not_ready_is_not_an_error (ctx : Context)
    (hs : ctx.recorder.state = .idle) :
    acquireFrame ctx false = (.notReady, ctx) ∧
    (∀ e : SituationError, AcquireResult.notReady ≠ .failed e) ∧
    AcquireResult.notReady ≠ .ready := by
  refine ⟨?_, ?_, ?_⟩
  · simp [acquireFrame, hs]
  · intro e he
    exact AcquireResult.noConfusion he
  · intro he
    exact AcquireResult.noConfusion he

/-- C6 witness: the sample context at idle, surface unavailable. -/
theorem c6_witness :
    acquireFrame sampleCtx false = (.notReady, sampleCtx) ∧
    (∀ e : SituationError, AcquireResult.notReady ≠ .failed e) ∧
    AcquireResult.notReady ≠ .ready :=
  c6_not_ready_is_not_an_error sampleCtx rfl

/-- C7: a dispatch with any workgroup dimension equal to zero fails with an
invalid-argument error and records nothing — it is never executed as a
silent no-op; hence a dispatch call succeeds only when every dimension is
at least 1. -/
theorem c7_zero_dispatch_rejected (reg : Registry) (c : Recorder)
    (gx gy gz : Nat) (hz : gx = 0 ∨ gy = 0 ∨ gz = 0) :
    record reg c (.dispatch gx gy gz) = .error .invalidArgument ∧
    tryRecord reg c (.dispatch gx gy gz) = c ∧
    (tryRecord reg c (.dispatch gx gy gz)).cmds = c.cmds := by
  have h1 : record reg c (.dispatch gx gy gz) = .error .invalidArgument := by
    simp [record, hz]
  exact ⟨h1, by simp [tryRecord, h1], by simp [tryRecord, h1]⟩

/-- C7 witness: a dispatch with a zero first dimension on a fresh
recorder. -/
theorem c7_witness :
    ((0 : Nat) = 0 ∨ (1 : Nat) = 0 ∨ (1 : Nat) = 0) ∧
    (record sampleReg Recorder.initial (.dispatch 0 1 1) = .error .invalidArgument ∧
     tryRecord sampleReg Recorder.initial (.dispatch 0 1 1) = Recorder.initial ∧
     (tryRecord sampleReg Recorder.initial (.dispatch 0 1 1)).cmds = Recorder.initial.cmds) :=
  ⟨Or.inl rfl, c7_zero_dispatch_rejected sampleReg Recorder.initial 0 1 1 (Or.inl rfl)⟩

/-- C8: `beginRenderPass` with an invalid target handle, or with depth
testing requested while no depth attachment is bound, fails with a
configuration error and has no side effect: the state machine stays in
`FrameAcquired` and does not enter `InPass`. -/
theorem c8_bad_begin_pass_no_side_effect (reg : Registry) (c : Recorder)
    (d : RenderPassDesc) (hs : c.state = .frameAcquired)
    (hbad : (!d.useDisplay && !(reg.validHandle d.target)) = true ∨
            (d.depthTest && !d.hasDepthAttachment) = true) :
    record reg c (.beginPass d) = .error .configurationError ∧
    tryRecord reg c (.beginPass d) = c ∧
    (tryRecord reg c (.beginPass d)).state = .frameAcquired := by
  have h1 : record reg c (.beginPass d) = .error .configurationError := by
    cases hbad with
    | inl hb => simp [record, hs, hb]
    | inr hb =>
        by_cases ht : (!d.useDisplay && !(reg.validHandle d.target)) = true
        · simp [record, hs, ht]
        · simp [record, hs, ht, hb]
  refine ⟨h1, by simp [tryRecord, h1], ?_⟩
  simp [tryRecord, h1, hs]

/-- C8 witness: beginning a pass over the sample registry with an
offscreen target whose handle generation does not match. -/
theorem c8_witness :
    (recFrameAcquired.state = RecState.frameAcquired) ∧
    ((!(RenderPassDesc.mk false ⟨1, 5⟩ false false).useDisplay &&
        !(sampleReg.validHandle (RenderPassDesc.mk false ⟨1, 5⟩ false false).target)) = true ∨
     ((RenderPassDesc.mk false ⟨1, 5⟩ false false).depthTest &&
        !(RenderPassDesc.mk false ⟨1, 5⟩ false false).hasDepthAttachment) = true) ∧
    (record sampleReg recFrameAcquired (.beginPass ⟨false, ⟨1, 5⟩, false, false⟩)
        = .error .configurationError ∧
     tryRecord sampleReg recFrameAcquired (.beginPass ⟨false, ⟨1, 5⟩, false, false⟩)
        = recFrameAcquired ∧
     (tryRecord sampleReg recFrameAcquired (.beginPass ⟨false, ⟨1, 5⟩, false, false⟩)).state
        = .frameAcquired) :=
  ⟨rfl, Or.inl (by decide),
   c8_bad_begin_pass_no_side_effect sampleReg recFrameAcquired
     ⟨false, ⟨1, 5⟩, false, false⟩ rfl (Or.inl (by decide))⟩

/-- C9: after `SituationSetCurrentContext(ctx)`, every implicit-current
form of a core operation — frame acquisition, recording, frame end,
buffer read-back — behaves identically to the explicit-context form on
`ctx`: the implicit layer is a convenience wrapper that only delegates,
and the core operations themselves act on their explicit context argument
alone. -/
theorem c9_implicit_context_is_a_shim (w : CurrentContextShim) (ctx : Context)
    (surfaceAvailable : Bool) (op : RecOp) (h : Handle) (off n : Nat) :
    implicitAcquireFrame (situationSetCurrentContext w ctx) surfaceAvailable
        = some (acquireFrame ctx surfaceAvailable) ∧
    implicitRecord (situationSetCurrentContext w ctx) op
        = some (contextRecord ctx op) ∧
    implicitEndFrame (situationSetCurrentContext w ctx)
        = some (endFrame ctx) ∧
    implicitReadBuffer (situationSetCurrentContext w ctx) h off n
        = some (ctx.reg.readBuffer h off n) :=
  ⟨rfl, rfl, rfl, rfl⟩

/-- C10: a successful destroy call made through a pointer to the handle
resets the pointed-to handle to the sentinel (id 0) — for all four
pointer-taking destroy entry points — so the examples' `.id != 0` guard
before destroy reliably prevents a second destruction: the guarded
cleanup run again on the reset handle is a no-op success, not a second
destroy. -/
theorem c10_destroy_resets_handle (r r2 : Registry) (h h2 : Handle)
    (hb : situationDestroyBuffer r h = .ok (r2, h2)) :
    h2.id = 0 ∧
    guardedDestroy r2 h2 = .ok (r2, h2) ∧
    situationDestroyMesh r h = .ok (r2, h2) ∧
    situationUnloadShader r h = .ok (r2, h2) ∧
    situationDestroyComputePipeline r h = .ok (r2, h2) := by
  have hnull : h2 = Handle.null := by
    unfold situationDestroyBuffer Registry.destroyByPointer at hb
    cases hd : r.destroyResource h with
    | error e => rw [hd] at hb; exact Except.noConfusion hb
    | ok r3 =>
        rw [hd] at hb
        simp [Except.map] at hb
        exact hb.2.symm
  have hid : h2.id = 0 := by rw [hnull]; rfl
  refine ⟨hid, ?_, hb, hb, hb⟩
  simp [guardedDestroy, hid]

/-- C10 witness: destroying the sample registry's only buffer through the
pointer-taking call leaves the sentinel in the handle, and the guarded
cleanup idiom run again is a harmless no-op. -/
theorem c10_witness :
    situationDestroyBuffer sampleReg ⟨1, 0⟩ = .ok (sampleRegBumped, Handle.null) ∧
    (Handle.null.id = 0 ∧
     guardedDestroy sampleRegBumped Handle.null = .ok (sampleRegBumped, Handle.null) ∧
     situationDestroyMesh sampleReg ⟨1, 0⟩ = .ok (sampleRegBumped, Handle.null) ∧
     situationUnloadShader sampleReg ⟨1, 0⟩ = .ok (sampleRegBumped, Handle.null) ∧
     situationDestroyComputePipeline sampleReg ⟨1, 0⟩ = .ok (sampleRegBumped, Handle.null)) :=
  ⟨rfl, c10_destroy_resets_handle sampleReg sampleRegBumped ⟨1, 0⟩ Handle.null rfl⟩

/-- C2: for every buffer set bound to a dispatch, a frame that records the
dispatch, then a barrier from compute-shader-write to vertex-shader-read,
then a draw reading those buffers, logs a draw that observes exactly the
dispatch's output (`dispatchStore … s0`, never the stale pre-dispatch
`s0`), and it does so identically on the immediate and the queued backend
adapters. -/
theorem c2_dispatch_barrier_draw (sem : Sem) (s0 : Store)
    (cp gx gy gz : Nat) (binds : List Nat) (dp : Nat) (reads : List Nat)
    (log0 : List DrawLogEntry) :
    (execImmediate sem [.lDispatch cp gx gy gz binds,
        .lBarrier .computeShaderWrite .vertexShaderRead, .lDraw dp reads]
        ⟨s0, log0⟩).log
      = log0 ++ [(dp, reads.map (dispatchStore sem cp gx gy gz binds s0).readAt)] ∧
    (execQueued sem [.lDispatch cp gx gy gz binds,
        .lBarrier .computeShaderWrite .vertexShaderRead, .lDraw dp reads]
        ⟨s0, s0, log0⟩).log
      = log0 ++ [(dp, reads.map (dispatchStore sem cp gx gy gz binds s0).readAt)] :=
  ⟨rfl, rfl⟩

/-- Simulation between the two backend adapters: running one recorded
stream through the queued adapter from any visible/compute store pair that
agrees outside the dirty set produces the same compute-stage contents and
the same draw log as the immediate adapter, provided every draw reads only
clean (barrier-protected) slots. -/
theorem adapterSim (sem : Sem) (cmds : List LCmd) :
    ∀ (dirty : List Nat) (vis comp : Store) (log : List DrawLogEntry),
    (∀ b, ¬ b ∈ dirty → vis.readAt b = comp.readAt b) →
    drawsClean cmds dirty = true →
    (execQueued sem cmds ⟨vis, comp, log⟩).comp
        = (execImmediate sem cmds ⟨comp, log⟩).store ∧
    (execQueued sem cmds ⟨vis, comp, log⟩).log
        = (execImmediate sem cmds ⟨comp, log⟩).log := by
  induction cmds with
  | nil => intro dirty vis comp log _ _; exact ⟨rfl, rfl⟩
  | cons c rest ih =>
      intro dirty vis comp log hagree hwb
      cases c with
      | lDispatch pipe gx gy gz binds =>
          have hwb' : drawsClean rest (dirty ++ binds) = true := by
            simpa [drawsClean] using hwb
          have hq : execQueued sem (LCmd.lDispatch pipe gx gy gz binds :: rest)
                ⟨vis, comp, log⟩
              = execQueued sem rest
                  ⟨vis, dispatchStore sem pipe gx gy gz binds comp, log⟩ := rfl
          have hi : execImmediate sem (LCmd.lDispatch pipe gx gy gz binds :: rest)
                ⟨comp, log⟩
              = execImmediate sem rest
                  ⟨dispatchStore sem pipe gx gy gz binds comp, log⟩ := rfl
          rw [hq, hi]
          refine ih (dirty ++ binds) vis _ log ?_ hwb'
          intro b hb
          have hb1 : ¬ b ∈ dirty := fun hm => hb (List.mem_append.mpr (Or.inl hm))
          have hb2 : ¬ b ∈ binds := fun hm => hb (List.mem_append.mpr (Or.inr hm))
          rw [dispatchStore_readAt_not_mem sem pipe gx gy gz binds comp b hb2]
          exact hagree b hb1
      | lBarrier src dst =>
          cases hf : src.flushes with
          | true =>
              have hwb' : drawsClean rest [] = true := by
                simpa [drawsClean, hf] using hwb
              have hq : execQueued sem (LCmd.lBarrier src dst :: rest) ⟨vis, comp, log⟩
                  = execQueued sem rest ⟨comp, comp, log⟩ := by
                simp [execQueued, queuedStep, hf]
              have hi : execImmediate sem (LCmd.lBarrier src dst :: rest) ⟨comp, log⟩
                  = execImmediate sem rest ⟨comp, log⟩ := rfl
              rw [hq, hi]
              exact ih [] comp comp log (fun b _ => rfl) hwb'
          | false =>
              have hwb' : drawsClean rest dirty = true := by
                simpa [drawsClean, hf] using hwb
              have hq : execQueued sem (LCmd.lBarrier src dst :: rest) ⟨vis, comp, log⟩
                  = execQueued sem rest ⟨vis, comp, log⟩ := by
                simp [execQueued, queuedStep, hf]
              have hi : execImmediate sem (LCmd.lBarrier src dst :: rest) ⟨comp, log⟩
                  = execImmediate sem rest ⟨comp, log⟩ := rfl
              rw [hq, hi]
              exact ih dirty vis comp log hagree hwb'
      | lDraw pipe reads =>
          have hwb2 := hwb
          simp [drawsClean, Bool.and_eq_true] at hwb2
          obtain ⟨hall, hrest⟩ := hwb2
          have hmap : reads.map vis.readAt = reads.map comp.readAt := by
            apply List.map_congr_left
            intro b hbmem
            exact hagree b (hall b hbmem)
          have hq : execQueued sem (LCmd.lDraw pipe reads :: rest) ⟨vis, comp, log⟩
              = execQueued sem rest
                  ⟨vis, comp, log ++ [(pipe, reads.map vis.readAt)]⟩ := rfl
          have hi : execImmediate sem (LCmd.lDraw pipe reads :: rest) ⟨comp, log⟩
              = execImmediate sem rest
                  ⟨comp, log ++ [(pipe, reads.map comp.readAt)]⟩ := rfl
          rw [hq, hi, hmap]
          exact ih dirty vis comp _ hagree hrest
      | lCopy src dst =>
          have hwb' : drawsClean rest (dirty ++ [dst]) = true := by
            simpa [drawsClean] using hwb
          have hq : execQueued sem (LCmd.lCopy src dst :: rest) ⟨vis, comp, log⟩
              = execQueued sem rest
                  ⟨vis, comp.writeAt dst (comp.readAt src), log⟩ := rfl
          have hi : execImmediate sem (LCmd.lCopy src dst :: rest) ⟨comp, log⟩
              = execImmediate sem rest
                  ⟨comp.writeAt dst (comp.readAt src), log⟩ := rfl
          rw [hq, hi]
          refine ih (dirty ++ [dst]) vis _ log ?_ hwb'
          intro b hb
          have hb1 : ¬ b ∈ dirty := fun hm => hb (List.mem_append.mpr (Or.inl hm))
          have hb2 : b ≠ dst := fun hm => hb (List.mem_append.mpr (Or.inr (by simp [hm])))
          rw [Store.readAt_writeAt_ne comp dst b _ (fun hh => hb2 hh.symm)]
          exact hagree b hb1

/-- C1: for every recorded command sequence (draws, dispatches, barriers
and copies over the same inputs) with correct barrier placement, executing
it through the immediate-mode adapter and through the explicit queued
adapter produces identical observable results: the same draw log (output
pixels, as each draw is a function of the buffer contents its stages read)
and the same final buffer contents once the frame's fence completes. -/
theorem c1_backend_equivalence (sem : Sem) (cmds : List LCmd) (s0 : Store)
    (hwb : drawsClean cmds [] = true) :
    (finishFrame (execQueued sem cmds ⟨s0, s0, []⟩)).vis
        = (execImmediate sem cmds ⟨s0, []⟩).store ∧
    (finishFrame (execQueued sem cmds ⟨s0, s0, []⟩)).log
        = (execImmediate sem cmds ⟨s0, []⟩).log := by
  have hs := adapterSim sem cmds [] s0 s0 [] (fun b _ => rfl) hwb
  exact ⟨hs.1, hs.2⟩

/-- C1 witness: the dispatch–barrier–draw stream over a concrete store and
concrete shader semantics, well-barriered, gives identical observables on
the two adapters. -/
theorem c1_witness :
    drawsClean sampleStream [] = true ∧
    ((finishFrame (execQueued sampleSem sampleStream ⟨sampleStore, sampleStore, []⟩)).vis
        = (execImmediate sampleSem sampleStream ⟨sampleStore, []⟩).store ∧
     (finishFrame (execQueued sampleSem sampleStream ⟨sampleStore, sampleStore, []⟩)).log
        = (execImmediate sampleSem sampleStream ⟨sampleStore, []⟩).log) :=
  ⟨by decide, c1_backend_equivalence sampleSem sampleStream sampleStore (by decide)⟩

end Situation
